import Mathlib

/-!
Verification of the Finance_Management transaction/balance contract.

Shallow embedding of the transaction routes (`server/routes/transactions.js`),
the bank-sync pipeline (`server/services/syncService.js` /
`server/routes/banking.js` sync-transactions handler) and the pagination
metadata of `GET /transactions`.

Modelling conventions:
* MongoDB documents become Lean structures; fields that no claim touches
  (category, description, date, tags, location, currency, colours, …) are
  omitted.
* The document store becomes an in-memory `DB` of lists; `Model.findOne`
  becomes `List.find?`, `doc.save()` becomes a map that replaces the record
  with the same id, `findByIdAndDelete` becomes a filter.
* JavaScript numbers are modelled as exact integers (`Int`); `Math.abs`
  is `|·|`.
* Each route handler becomes a pure function returning the HTTP status it
  responds with together with the updated store.
-/

/-- Transaction `type` field: the enum of income, expense and transfer
from the Transaction schema. -/
inductive TxType where
  | income
  | expense
  | transfer
deriving DecidableEq, Repr

/-- A Transaction document (fields relevant to the claims; the schema
fields category, description, date, tags, location and isPlaidSynced are
omitted as no claim mentions them).  `plaidTransactionId` is `none` for
manually created transactions. -/
structure Transaction where
  id : Nat
  accountId : Nat
  userId : Nat
  amount : Int
  txType : TxType
  balanceAfter : Int
  isUrgent : Bool
  plaidTransactionId : Option Nat
deriving DecidableEq, Repr

/-- An Account document (fields relevant to the claims). -/
structure Account where
  id : Nat
  userId : Nat
  balance : Int
  isActive : Bool
deriving DecidableEq, Repr

/-- The document store: the two collections the transaction routes touch,
plus a counter modelling the generation by MongoDB of fresh ids for newly
inserted transactions. -/
structure DB where
  accounts : List Account
  transactions : List Transaction
  nextTxId : Nat
deriving DecidableEq, Repr

/-- The ownership check of the POST /transactions handler:
Account.findOne with the account id, the requesting user id and the
isActive flag. -/
def findAccountOwnedActive (db : DB) (accountId userId : Nat) : Option Account :=
  db.accounts.find? fun a => a.id == accountId && a.userId == userId && a.isActive

/-- Lookup by account id alone, as the PUT and DELETE handlers do with
Account.findById. -/
def findAccountById (db : DB) (accountId : Nat) : Option Account :=
  db.accounts.find? fun a => a.id == accountId

/-- The ownership check of the GET/PUT/DELETE /transactions/:id handlers:
Transaction.findOne with the transaction id and the requesting user id. -/
def findTransactionOwned (db : DB) (txId userId : Nat) : Option Transaction :=
  db.transactions.find? fun t => t.id == txId && t.userId == userId

/-- Persist the account record with this id, as account.save does. -/
def saveAccount (db : DB) (a : Account) : DB :=
  { db with accounts := db.accounts.map fun b => if b.id == a.id then a else b }

/-- Persist the transaction record with this id, as transaction.save does
on an existing record. -/
def saveTransaction (db : DB) (t : Transaction) : DB :=
  { db with transactions := db.transactions.map fun s => if s.id == t.id then t else s }

/-- Remove the transaction record, as Transaction.findByIdAndDelete does. -/
def removeTransaction (db : DB) (txId : Nat) : DB :=
  { db with transactions := db.transactions.filter fun t => !(t.id == txId) }

/-- The balance of the account with the given id, if present. -/
def balanceOf (db : DB) (accountId : Nat) : Option Int :=
  (findAccountById db accountId).map Account.balance

/-- Body of a POST /transactions request (fields relevant to the claims). -/
structure CreateTransactionRequest where
  accountId : Nat
  amount : Int
  txType : TxType
deriving DecidableEq, Repr

/-- Sign normalisation applied before storing an amount (POST and PUT
handlers): an expense stores minus Math.abs(amount), every other type
stores Math.abs(amount). -/
def storedAmount (txType : TxType) (amount : Int) : Int :=
  if txType = TxType.expense then -|amount| else |amount|

/-- The balance computation of the POST handler: newBalance starts at
account.balance; an income adds Math.abs(amount), an expense subtracts
it, and a transfer hits neither branch so the balance is unchanged. -/
def createNewBalance (balance : Int) (txType : TxType) (amount : Int) : Int :=
  if txType = TxType.income then balance + |amount|
  else if txType = TxType.expense then balance - |amount|
  else balance

/-- The POST /transactions handler: verifies ownership/activity (404 on
failure), computes the new balance, inserts the new transaction with
`balanceAfter = newBalance` and `isUrgent = Math.abs(amount) > 1000`,
then persists `account.balance = newBalance`.  Returns the HTTP status
and the updated store. -/
def createTransaction (userId : Nat) (req : CreateTransactionRequest) (db : DB) :
    Nat × DB :=
  match findAccountOwnedActive db req.accountId userId with
  | none => (404, db)
  | some account =>
    let newBalance := createNewBalance account.balance req.txType req.amount
    let tx : Transaction :=
      { id := db.nextTxId
        accountId := req.accountId
        userId := userId
        amount := storedAmount req.txType req.amount
        txType := req.txType
        balanceAfter := newBalance
        isUrgent := decide (1000 < |req.amount|)
        plaidTransactionId := none }
    let db1 : DB :=
      { db with transactions := db.transactions ++ [tx], nextTxId := db.nextTxId + 1 }
    let db2 := saveAccount db1 { account with balance := newBalance }
    (201, db2)

/-- Body of a PUT /transactions/:id request (fields relevant to the claims). -/
structure UpdateTransactionRequest where
  txId : Nat
  amount : Int
  txType : TxType
deriving DecidableEq, Repr

/-- The PUT /transactions/:id handler: 404 when the transaction is not
owned by the requester; otherwise reverts the stored effect
(`account.balance = transaction.balanceAfter - transaction.amount`),
applies the new normalised amount, and persists both records.  A missing
account makes the JavaScript throw on `account.balance`, caught as a 500
with nothing persisted. -/
def updateTransaction (userId : Nat) (req : UpdateTransactionRequest) (db : DB) :
    Nat × DB :=
  match findTransactionOwned db req.txId userId with
  | none => (404, db)
  | some tx =>
    match findAccountById db tx.accountId with
    | none => (500, db)
    | some account =>
      let revertedBalance := tx.balanceAfter - tx.amount
      let newAmount := storedAmount req.txType req.amount
      let newBalance := revertedBalance + newAmount
      let tx2 : Transaction :=
        { tx with
            amount := newAmount
            txType := req.txType
            balanceAfter := newBalance
            isUrgent := decide (1000 < |req.amount|) }
      let db1 := saveTransaction db tx2
      let db2 := saveAccount db1 { account with balance := newBalance }
      (200, db2)

/-- The DELETE /transactions/:id handler: 404 when the transaction is not
owned by the requester; otherwise sets
`account.balance = transaction.balanceAfter - transaction.amount`, persists
the account, then removes the transaction record.  A missing account gives
a 500 with nothing persisted. -/
def deleteTransaction (userId : Nat) (txId : Nat) (db : DB) : Nat × DB :=
  match findTransactionOwned db txId userId with
  | none => (404, db)
  | some tx =>
    match findAccountById db tx.accountId with
    | none => (500, db)
    | some account =>
      let db1 := saveAccount db { account with balance := tx.balanceAfter - tx.amount }
      let db2 := removeTransaction db1 txId
      (200, db2)

/-- Fold a sequence of POST /transactions requests, all issued by the
same authenticated user, over the store. -/
def runCreates (userId : Nat) (reqs : List CreateTransactionRequest) (db : DB) : DB :=
  reqs.foldl (fun d r => (createTransaction userId r d).2) db

/-- Sum of the stored signed `amount` fields of a list of transactions. -/
def sumAmounts (txs : List Transaction) : Int :=
  (txs.map Transaction.amount).sum

/-- An external (Plaid) transaction as consumed by the sync pipeline
(fields relevant to the claims; `name`, `date` and `location` are omitted). -/
structure PlaidTx where
  transactionId : Nat
  amount : Int
deriving DecidableEq, Repr

/-- The in-memory state the sync loop threads: the account balance and
the local transaction collection. -/
structure SyncState where
  balance : Int
  transactions : List Transaction
deriving DecidableEq, Repr

/-- The transaction type derived by the sync pipeline: expense when the
external amount is positive, income otherwise. -/
def plaidTxType (amount : Int) : TxType :=
  if 0 < amount then TxType.expense else TxType.income

/-- Whether a local transaction with this external (Plaid) transaction id
already exists — the `Transaction.findOne({plaidTransactionId})` check. -/
def extPresent (txs : List Transaction) (pid : Nat) : Bool :=
  txs.any fun t => t.plaidTransactionId == some pid

/-- One iteration of the sync loop in
`SyncService.syncAccountTransactions` (the `banking.js` sync-transactions
handler runs the same body): skip if a local transaction with this
external id exists, otherwise derive the type from the sign, store the
normalised amount, snapshot `balanceAfter` and update the balance. -/
def syncOne (accountId userId : Nat) (s : SyncState) (p : PlaidTx) : SyncState :=
  if extPresent s.transactions p.transactionId then s
  else
    let ty := plaidTxType p.amount
    let newBalance :=
      if ty = TxType.expense then s.balance - |p.amount| else s.balance + |p.amount|
    let tx : Transaction :=
      { id := 0
        accountId := accountId
        userId := userId
        amount := if ty = TxType.expense then -|p.amount| else |p.amount|
        txType := ty
        balanceAfter := newBalance
        isUrgent := decide (1000 < |p.amount|)
        plaidTransactionId := some p.transactionId }
    { balance := newBalance, transactions := s.transactions ++ [tx] }

/-- Fold the sync loop of SyncService.syncAccountTransactions over a batch
of external transactions. -/
def syncAccountTransactions (accountId userId : Nat) (s : SyncState)
    (batch : List PlaidTx) : SyncState :=
  batch.foldl (syncOne accountId userId) s

/-- Number of local transactions carrying a given external id. -/
def extCount (txs : List Transaction) (pid : Nat) : Nat :=
  (txs.filter fun t => t.plaidTransactionId == some pid).length

/-- At most one local transaction per external transaction id. -/
def atMostOnePerExt (txs : List Transaction) : Prop :=
  ∀ pid, extCount txs pid ≤ 1

/-- The pagination booleans of the GET /transactions response:
`hasNext: page * limit < total, hasPrev: page > 1`. -/
structure PaginationMeta where
  current : Int
  total : Int
  hasNext : Bool
  hasPrev : Bool
deriving DecidableEq, Repr

/-- Pagination metadata of the GET /transactions handler (the `pages`
field, `Math.ceil(total / limit)`, is omitted as no claim mentions it). -/
def paginationMeta (page limit total : Int) : PaginationMeta :=
  { current := page
    total := total
    hasNext := decide (page * limit < total)
    hasPrev := decide (1 < page) }

/-- The body of an error response: `message` is always present, `error`
models the optional `error: error.message` field (`none` when the handler
responds without it). -/
structure ErrorBody where
  message : String
  error : Option String
deriving DecidableEq, Repr

/-- Every error response emitted by the transaction routes
(`server/routes/transactions.js`), as status/body pairs, in source order:
the five catch-all 500s and the four not-found 404s.  The parameter `e`
is the runtime `error.message` echoed by the catch branches. -/
def transactionRouteErrorResponses (e : String) : List (Nat × ErrorBody) :=
  [ (500, { message := "Failed to fetch transactions", error := some e }),
    (404, { message := "Account not found", error := none }),
    (500, { message := "Failed to create transaction", error := some e }),
    (404, { message := "Transaction not found", error := none }),
    (500, { message := "Failed to fetch transaction", error := some e }),
    (404, { message := "Transaction not found", error := none }),
    (500, { message := "Failed to update transaction", error := some e }),
    (404, { message := "Transaction not found", error := none }),
    (500, { message := "Failed to delete transaction", error := some e }) ]

lemma findAccountOwnedActive_single (a : Account) (txs : List Transaction) (n aid u : Nat)
    (h : (a.id == aid && a.userId == u && a.isActive) = true) :
    findAccountOwnedActive ⟨[a], txs, n⟩ aid u = some a := by
  simp [findAccountOwnedActive, List.find?, h]

theorem c10_pagination_flags (page limit total : Int) :
    ((paginationMeta page limit total).hasNext = true ↔ page * limit < total) ∧
    ((paginationMeta page limit total).hasPrev = true ↔ 1 < page) := by
  constructor <;> simp [paginationMeta]

theorem c9_counterexample :
    ¬ ∀ r ∈ transactionRouteErrorResponses "boom", (r.2).error.isSome = true := by
  decide

theorem c9_statuses_and_shapes (e : String) :
    ∀ r ∈ transactionRouteErrorResponses e,
      (r.1 = 404 ∧ r.2.error = none) ∨ (r.1 = 500 ∧ r.2.error = some e) := by
  intro r hr
  fin_cases hr <;> simp

theorem c5_transfer_create (a : Account) (txs : List Transaction) (n u : Nat) (amt : Int)
    (hown : a.userId = u) (hact : a.isActive = true) :
    ((createTransaction u ⟨a.id, amt, TxType.transfer⟩ ⟨[a], txs, n⟩).1 = 201 ∧
      (createTransaction u ⟨a.id, amt, TxType.transfer⟩ ⟨[a], txs, n⟩).2.transactions =
        txs ++ [⟨n, a.id, u, |amt|, TxType.transfer, a.balance, decide (1000 < |amt|), none⟩] ∧
      balanceOf (createTransaction u ⟨a.id, amt, TxType.transfer⟩ ⟨[a], txs, n⟩).2 a.id =
        some a.balance) := by
  have hfind : findAccountOwnedActive ⟨[a], txs, n⟩ a.id u = some a :=
    findAccountOwnedActive_single a txs n a.id u (by simp [hown, hact])
  refine ⟨?_, ?_, ?_⟩ <;>
    simp [createTransaction, hfind, createNewBalance, storedAmount, saveAccount,
      balanceOf, findAccountById, List.find?]

lemma sumAmounts_append (xs ys : List Transaction) :
    sumAmounts (xs ++ ys) = sumAmounts xs + sumAmounts ys := by
  simp [sumAmounts]

lemma createNewBalance_eq_add (b : Int) (ty : TxType) (amt : Int)
    (h : ty ≠ TxType.transfer) :
    createNewBalance b ty amt = b + storedAmount ty amt := by
  cases ty
  · simp [createNewBalance, storedAmount]
  · simp [createNewBalance, storedAmount]
    ring
  · simp at h

lemma runCreates_single_balance (u : Nat) (reqs : List CreateTransactionRequest)
    (hty : ∀ r ∈ reqs, r.txType ≠ TxType.transfer) (a : Account) (txs : List Transaction)
    (n : Nat) :
    balanceOf (runCreates u reqs ⟨[a], txs, n⟩) a.id =
      some (a.balance + (sumAmounts (runCreates u reqs ⟨[a], txs, n⟩).transactions
        - sumAmounts txs)) := by
  induction reqs generalizing a txs n with
  | nil =>
    simp [runCreates, balanceOf, findAccountById, List.find?, sumAmounts]
  | cons r rs ih =>
    have hr : r.txType ≠ TxType.transfer := hty r (by simp)
    have hrs : ∀ q ∈ rs, q.txType ≠ TxType.transfer := fun q hq => hty q (by simp [hq])
    have hcons : runCreates u (r :: rs) ⟨[a], txs, n⟩ =
        runCreates u rs (createTransaction u r ⟨[a], txs, n⟩).2 := rfl
    by_cases hp : (a.id == r.accountId && a.userId == u && a.isActive) = true
    · have hfind : findAccountOwnedActive ⟨[a], txs, n⟩ r.accountId u = some a :=
        findAccountOwnedActive_single a txs n r.accountId u hp
      have hstep : (createTransaction u r ⟨[a], txs, n⟩).2 =
          ⟨[{ a with balance := createNewBalance a.balance r.txType r.amount }],
            txs ++ [⟨n, r.accountId, u, storedAmount r.txType r.amount, r.txType,
              createNewBalance a.balance r.txType r.amount,
              decide (1000 < |r.amount|), none⟩], n + 1⟩ := by
        simp [createTransaction, hfind, saveAccount]
      rw [hcons, hstep]
      have := ih hrs { a with balance := createNewBalance a.balance r.txType r.amount }
        (txs ++ [⟨n, r.accountId, u, storedAmount r.txType r.amount, r.txType,
          createNewBalance a.balance r.txType r.amount, decide (1000 < |r.amount|), none⟩])
        (n + 1)
      rw [this, createNewBalance_eq_add a.balance r.txType r.amount hr, sumAmounts_append]
      congr 1
      simp [sumAmounts]
      ring
    · rw [Bool.not_eq_true] at hp
      have hfind : findAccountOwnedActive ⟨[a], txs, n⟩ r.accountId u = none := by
        simp [findAccountOwnedActive, List.find?, hp]
      have hstep : (createTransaction u r ⟨[a], txs, n⟩).2 = ⟨[a], txs, n⟩ := by
        simp [createTransaction, hfind]
      rw [hcons, hstep]
      exact ih hrs a txs n

theorem c1_balance_is_initial_plus_sum (a : Account) (u n : Nat)
    (reqs : List CreateTransactionRequest)
    (hty : ∀ r ∈ reqs, r.txType ≠ TxType.transfer) :
    balanceOf (runCreates u reqs ⟨[a], [], n⟩) a.id =
      some (a.balance + sumAmounts (runCreates u reqs ⟨[a], [], n⟩).transactions) := by
  have h := runCreates_single_balance u reqs hty a [] n
  simpa [sumAmounts] using h

theorem c1_counterexample :
    balanceOf (runCreates 1 [⟨1, 50, TxType.transfer⟩] ⟨[⟨1, 1, 100, true⟩], [], 0⟩) 1 ≠
      some (100 + sumAmounts (runCreates 1 [⟨1, 50, TxType.transfer⟩]
        ⟨[⟨1, 1, 100, true⟩], [], 0⟩).transactions) := by
  decide

theorem c1_witness :
    (∀ r ∈ ([⟨1, 30, TxType.expense⟩, ⟨1, 50, TxType.income⟩] :
        List CreateTransactionRequest), r.txType ≠ TxType.transfer) ∧
    balanceOf (runCreates 1 [⟨1, 30, TxType.expense⟩, ⟨1, 50, TxType.income⟩]
        ⟨[⟨1, 1, 100, true⟩], [], 0⟩) 1 =
      some (100 + sumAmounts (runCreates 1 [⟨1, 30, TxType.expense⟩, ⟨1, 50, TxType.income⟩]
        ⟨[⟨1, 1, 100, true⟩], [], 0⟩).transactions) :=
  ⟨by decide, c1_balance_is_initial_plus_sum ⟨1, 1, 100, true⟩ 1 0 _ (by decide)⟩

theorem c2_counterexample :
    (createTransaction 1 ⟨1, 50, TxType.transfer⟩ ⟨[⟨1, 1, 100, true⟩], [], 0⟩).1 = 201 ∧
    balanceOf (createTransaction 1 ⟨1, 50, TxType.transfer⟩
        ⟨[⟨1, 1, 100, true⟩], [], 0⟩).2 1 ≠
      some (100 + storedAmount TxType.transfer 50) := by
  decide

theorem c2_create_contract :
    (∀ (a : Account) (txs : List Transaction) (n u : Nat)
        (req : CreateTransactionRequest),
      req.accountId = a.id → a.userId = u → a.isActive = true →
      req.txType ≠ TxType.transfer →
      (createTransaction u req ⟨[a], txs, n⟩).1 = 201 ∧
      (createTransaction u req ⟨[a], txs, n⟩).2.transactions =
        txs ++ [⟨n, a.id, u, storedAmount req.txType req.amount, req.txType,
          a.balance + storedAmount req.txType req.amount,
          decide (1000 < |req.amount|), none⟩] ∧
      balanceOf (createTransaction u req ⟨[a], txs, n⟩).2 a.id =
        some (a.balance + storedAmount req.txType req.amount)) ∧
    (∀ (db : DB) (u : Nat) (req : CreateTransactionRequest),
      findAccountOwnedActive db req.accountId u = none →
      createTransaction u req db = (404, db)) := by
  constructor
  · intro a txs n u req hacc hown hact hty
    have hfind : findAccountOwnedActive ⟨[a], txs, n⟩ req.accountId u = some a :=
      findAccountOwnedActive_single a txs n req.accountId u (by simp [hacc, hown, hact])
    have hnb := createNewBalance_eq_add a.balance req.txType req.amount hty
    rw [hacc] at hfind
    refine ⟨?_, ?_, ?_⟩ <;>
      simp [createTransaction, hfind, hnb, hacc, saveAccount, balanceOf,
        findAccountById, List.find?]
  · intro db u req hfind
    simp [createTransaction, hfind]

theorem c2_create_contract_witness :
    ((createTransaction 1 ⟨1, 30, TxType.expense⟩ ⟨[⟨1, 1, 100, true⟩], [], 0⟩).1 = 201 ∧
      (createTransaction 1 ⟨1, 30, TxType.expense⟩
          ⟨[⟨1, 1, 100, true⟩], [], 0⟩).2.transactions =
        [] ++ [⟨0, 1, 1, storedAmount TxType.expense 30, TxType.expense,
          100 + storedAmount TxType.expense 30, decide (1000 < |(30 : Int)|), none⟩] ∧
      balanceOf (createTransaction 1 ⟨1, 30, TxType.expense⟩
          ⟨[⟨1, 1, 100, true⟩], [], 0⟩).2 1 =
        some (100 + storedAmount TxType.expense 30)) ∧
    createTransaction 2 ⟨1, 30, TxType.expense⟩ ⟨[⟨1, 1, 100, true⟩], [], 0⟩ =
      (404, ⟨[⟨1, 1, 100, true⟩], [], 0⟩) :=
  ⟨c2_create_contract.1 ⟨1, 1, 100, true⟩ [] 0 1 ⟨1, 30, TxType.expense⟩ rfl rfl rfl
      (by decide),
    c2_create_contract.2 ⟨[⟨1, 1, 100, true⟩], [], 0⟩ 2 ⟨1, 30, TxType.expense⟩ (by decide)⟩

lemma find_after_save_tx (txs : List Transaction) (txId u : Nat) (tx tx2 : Transaction)
    (h : txs.find? (fun t => t.id == txId && t.userId == u) = some tx)
    (hid : tx2.id = tx.id) (huid : tx2.userId = tx.userId) :
    (txs.map fun s => if s.id == tx.id then tx2 else s).find?
      (fun t => t.id == txId && t.userId == u) = some tx2 := by
  have hq := List.find?_some h
  simp only [Bool.and_eq_true, beq_iff_eq] at hq
  have hq2 : (tx2.id == txId && tx2.userId == u) = true := by
    simp [hid, huid, hq.1, hq.2]
  induction txs with
  | nil => simp [List.find?] at h
  | cons t ts ih =>
    by_cases hp : (t.id == txId && t.userId == u) = true
    · simp only [List.find?, hp] at h
      injection h with h
      subst h
      simp [List.find?, hq2]
    · have hp2 : (t.id == txId && t.userId == u) = false := by
        rwa [Bool.not_eq_true] at hp
      simp only [List.find?, hp2] at h
      by_cases hc : (t.id == tx.id) = true
      · simp [List.find?, hc, hq2]
      · have hc2 : (t.id == tx.id) = false := by
          rwa [Bool.not_eq_true] at hc
        simp only [List.map_cons, hc2, Bool.false_eq_true, if_false, List.find?, hp2]
        exact ih h

theorem c3_update_contract :
    (∀ (a : Account) (txs : List Transaction) (n u : Nat)
        (req : UpdateTransactionRequest) (tx : Transaction),
      findTransactionOwned ⟨[a], txs, n⟩ req.txId u = some tx →
      tx.accountId = a.id →
      (updateTransaction u req ⟨[a], txs, n⟩).1 = 200 ∧
      findTransactionOwned (updateTransaction u req ⟨[a], txs, n⟩).2 req.txId u =
        some { tx with
          amount := storedAmount req.txType req.amount
          txType := req.txType
          balanceAfter := (tx.balanceAfter - tx.amount) + storedAmount req.txType req.amount
          isUrgent := decide (1000 < |req.amount|) } ∧
      balanceOf (updateTransaction u req ⟨[a], txs, n⟩).2 a.id =
        some ((tx.balanceAfter - tx.amount) + storedAmount req.txType req.amount)) ∧
    (∀ (db : DB) (u : Nat) (req : UpdateTransactionRequest),
      findTransactionOwned db req.txId u = none →
      updateTransaction u req db = (404, db)) := by
  constructor
  · intro a txs n u req tx hfind haid
    have hfa : findAccountById ⟨[a], txs, n⟩ tx.accountId = some a := by
      simp [findAccountById, List.find?, haid]
    refine ⟨?_, ?_, ?_⟩
    · simp [updateTransaction, hfind, hfa]
    · have hsave := find_after_save_tx txs req.txId u tx
        { tx with
          amount := storedAmount req.txType req.amount
          txType := req.txType
          balanceAfter := (tx.balanceAfter - tx.amount) + storedAmount req.txType req.amount
          isUrgent := decide (1000 < |req.amount|) }
        hfind rfl rfl
      simp only [updateTransaction, hfind, hfa, saveTransaction, saveAccount]
      simp only [findTransactionOwned]
      exact hsave
    · simp [updateTransaction, hfind, haid, saveTransaction, saveAccount,
        balanceOf, findAccountById, List.find?]
  · intro db u req hfind
    simp [updateTransaction, hfind]

theorem c3_update_contract_witness :
    ((updateTransaction 1 ⟨0, 40, TxType.income⟩
        ⟨[⟨1, 1, 70, true⟩], [⟨0, 1, 1, -30, TxType.expense, 70, false, none⟩], 1⟩).1 = 200 ∧
      findTransactionOwned (updateTransaction 1 ⟨0, 40, TxType.income⟩
          ⟨[⟨1, 1, 70, true⟩], [⟨0, 1, 1, -30, TxType.expense, 70, false, none⟩], 1⟩).2 0 1 =
        some { (⟨0, 1, 1, -30, TxType.expense, 70, false, none⟩ : Transaction) with
          amount := storedAmount TxType.income 40
          txType := TxType.income
          balanceAfter := ((70 : Int) - (-30)) + storedAmount TxType.income 40
          isUrgent := decide (1000 < |(40 : Int)|) } ∧
      balanceOf (updateTransaction 1 ⟨0, 40, TxType.income⟩
          ⟨[⟨1, 1, 70, true⟩], [⟨0, 1, 1, -30, TxType.expense, 70, false, none⟩], 1⟩).2 1 =
        some (((70 : Int) - (-30)) + storedAmount TxType.income 40)) ∧
    updateTransaction 1 ⟨5, 40, TxType.income⟩ ⟨[⟨1, 1, 70, true⟩], [], 0⟩ =
      (404, ⟨[⟨1, 1, 70, true⟩], [], 0⟩) :=
  ⟨c3_update_contract.1 ⟨1, 1, 70, true⟩ [⟨0, 1, 1, -30, TxType.expense, 70, false, none⟩]
      1 1 ⟨0, 40, TxType.income⟩ ⟨0, 1, 1, -30, TxType.expense, 70, false, none⟩
      (by decide) rfl,
    c3_update_contract.2 ⟨[⟨1, 1, 70, true⟩], [], 0⟩ 1 ⟨5, 40, TxType.income⟩ (by decide)⟩

lemma find_skip_fresh (txs : List Transaction) (n u : Nat) (tx : Transaction)
    (hfresh : ∀ t ∈ txs, t.id ≠ n) (hid : tx.id = n) (huid : tx.userId = u) :
    (txs ++ [tx]).find? (fun t => t.id == n && t.userId == u) = some tx := by
  induction txs with
  | nil => simp [List.find?, hid, huid]
  | cons t ts ih =>
    have ht : t.id ≠ n := hfresh t (by simp)
    have hp : (t.id == n && t.userId == u) = false := by simp [ht]
    simp only [List.cons_append, List.find?, hp]
    exact ih fun s hs => hfresh s (by simp [hs])

theorem c4_delete_last_created_reverts (a : Account) (txs : List Transaction) (n u : Nat)
    (req : CreateTransactionRequest)
    (hacc : req.accountId = a.id) (hown : a.userId = u) (hact : a.isActive = true)
    (hty : req.txType ≠ TxType.transfer)
    (hfresh : ∀ t ∈ txs, t.id ≠ n) :
    balanceOf (deleteTransaction u n (createTransaction u req ⟨[a], txs, n⟩).2).2 a.id =
      some a.balance := by
  have hfind : findAccountOwnedActive ⟨[a], txs, n⟩ req.accountId u = some a :=
    findAccountOwnedActive_single a txs n req.accountId u (by simp [hacc, hown, hact])
  have hstep : (createTransaction u req ⟨[a], txs, n⟩).2 =
      ⟨[{ a with balance := createNewBalance a.balance req.txType req.amount }],
        txs ++ [⟨n, req.accountId, u, storedAmount req.txType req.amount, req.txType,
          createNewBalance a.balance req.txType req.amount,
          decide (1000 < |req.amount|), none⟩], n + 1⟩ := by
    simp [createTransaction, hfind, saveAccount]
  rw [hstep]
  have hfindtx := find_skip_fresh txs n u
    ⟨n, req.accountId, u, storedAmount req.txType req.amount, req.txType,
      createNewBalance a.balance req.txType req.amount,
      decide (1000 < |req.amount|), none⟩ hfresh rfl rfl
  have hfound : findTransactionOwned
      ⟨[{ a with balance := createNewBalance a.balance req.txType req.amount }],
        txs ++ [⟨n, req.accountId, u, storedAmount req.txType req.amount, req.txType,
          createNewBalance a.balance req.txType req.amount,
          decide (1000 < |req.amount|), none⟩], n + 1⟩ n u =
      some ⟨n, req.accountId, u, storedAmount req.txType req.amount, req.txType,
        createNewBalance a.balance req.txType req.amount,
        decide (1000 < |req.amount|), none⟩ := by
    simp only [findTransactionOwned]
    exact hfindtx
  have hfa2 : findAccountById
      ⟨[{ a with balance := createNewBalance a.balance req.txType req.amount }],
        txs ++ [⟨n, req.accountId, u, storedAmount req.txType req.amount, req.txType,
          createNewBalance a.balance req.txType req.amount,
          decide (1000 < |req.amount|), none⟩], n + 1⟩ req.accountId =
      some { a with balance := createNewBalance a.balance req.txType req.amount } := by
    simp [findAccountById, List.find?, hacc]
  simp only [deleteTransaction, hfound, hfa2, saveAccount, removeTransaction]
  simp [balanceOf, findAccountById, List.find?,
    createNewBalance_eq_add a.balance req.txType req.amount hty]

theorem c4_counterexample :
    balanceOf (deleteTransaction 1 0 (createTransaction 1 ⟨1, 50, TxType.transfer⟩
        ⟨[⟨1, 1, 100, true⟩], [], 0⟩).2).2 1 = some 50 ∧
    ¬ balanceOf (deleteTransaction 1 0 (createTransaction 1 ⟨1, 50, TxType.transfer⟩
        ⟨[⟨1, 1, 100, true⟩], [], 0⟩).2).2 1 = some 100 := by
  decide

theorem c4_witness :
    balanceOf (deleteTransaction 1 0 (createTransaction 1 ⟨1, 30, TxType.expense⟩
        ⟨[⟨1, 1, 100, true⟩], [], 0⟩).2).2 1 = some 100 :=
  c4_delete_last_created_reverts ⟨1, 1, 100, true⟩ [] 0 1 ⟨1, 30, TxType.expense⟩
    rfl rfl rfl (by decide) (by simp)

theorem c6_sign_normalization :
    (∀ (u : Nat) (req : CreateTransactionRequest) (db : DB) (tx : Transaction),
      (createTransaction u req db).2.transactions = db.transactions ++ [tx] →
      (tx.txType = TxType.expense → tx.amount = -|req.amount|) ∧
      (tx.txType ≠ TxType.expense → tx.amount = |req.amount|)) ∧
    (∀ (accountId userId : Nat) (s : SyncState) (p : PlaidTx) (tx : Transaction),
      (syncOne accountId userId s p).transactions = s.transactions ++ [tx] →
      (tx.txType = TxType.expense → tx.amount = -|p.amount|) ∧
      (tx.txType ≠ TxType.expense → tx.amount = |p.amount|)) := by
  constructor
  · intro u req db tx h
    rcases hfind : findAccountOwnedActive db req.accountId u with _ | acct
    · simp [createTransaction, hfind] at h
    · simp only [createTransaction, hfind, saveAccount] at h
      have h2 := List.append_cancel_left h
      have h3 : tx = ⟨db.nextTxId, req.accountId, u, storedAmount req.txType req.amount,
          req.txType, createNewBalance acct.balance req.txType req.amount,
          decide (1000 < |req.amount|), none⟩ := by
        injection h2 with hh
        exact hh.symm
      subst h3
      constructor
      · intro hexp
        simp only at hexp
        simp [storedAmount, hexp]
      · intro hexp
        simp only at hexp
        simp [storedAmount, hexp]
  · intro accountId userId s p tx h
    by_cases hp : extPresent s.transactions p.transactionId = true
    · simp [syncOne, hp] at h
    · have hp2 : extPresent s.transactions p.transactionId = false := by
        rwa [Bool.not_eq_true] at hp
      simp only [syncOne, hp2, Bool.false_eq_true, if_false] at h
      have h2 := List.append_cancel_left h
      have h3 : tx = ⟨0, accountId, userId,
          if plaidTxType p.amount = TxType.expense then -|p.amount| else |p.amount|,
          plaidTxType p.amount,
          if plaidTxType p.amount = TxType.expense then s.balance - |p.amount|
            else s.balance + |p.amount|,
          decide (1000 < |p.amount|), some p.transactionId⟩ := by
        injection h2 with hh
        exact hh.symm
      subst h3
      constructor
      · intro hexp
        simp only at hexp
        simp [hexp]
      · intro hexp
        simp only at hexp
        simp [hexp]

theorem c5_transfer_create_witness :
    ((createTransaction 1 ⟨1, 50, TxType.transfer⟩ ⟨[⟨1, 1, 100, true⟩], [], 0⟩).1 = 201 ∧
      (createTransaction 1 ⟨1, 50, TxType.transfer⟩
          ⟨[⟨1, 1, 100, true⟩], [], 0⟩).2.transactions =
        [] ++ [⟨0, 1, 1, |(50 : Int)|, TxType.transfer, 100,
          decide (1000 < |(50 : Int)|), none⟩] ∧
      balanceOf (createTransaction 1 ⟨1, 50, TxType.transfer⟩
          ⟨[⟨1, 1, 100, true⟩], [], 0⟩).2 1 = some 100) :=
  c5_transfer_create ⟨1, 1, 100, true⟩ [] 0 1 50 rfl rfl

theorem c6_sign_normalization_witness :
    (((⟨0, 1, 1, -30, TxType.expense, 70, false, none⟩ : Transaction).txType = TxType.expense →
        (⟨0, 1, 1, -30, TxType.expense, 70, false, none⟩ : Transaction).amount = -|(30 : Int)|) ∧
      ((⟨0, 1, 1, -30, TxType.expense, 70, false, none⟩ : Transaction).txType ≠ TxType.expense →
        (⟨0, 1, 1, -30, TxType.expense, 70, false, none⟩ : Transaction).amount = |(30 : Int)|)) ∧
    (((⟨0, 1, 1, -20, TxType.expense, 80, false, some 7⟩ : Transaction).txType = TxType.expense →
        (⟨0, 1, 1, -20, TxType.expense, 80, false, some 7⟩ : Transaction).amount = -|(20 : Int)|) ∧
      ((⟨0, 1, 1, -20, TxType.expense, 80, false, some 7⟩ : Transaction).txType ≠ TxType.expense →
        (⟨0, 1, 1, -20, TxType.expense, 80, false, some 7⟩ : Transaction).amount = |(20 : Int)|)) :=
  ⟨c6_sign_normalization.1 1 ⟨1, 30, TxType.expense⟩ ⟨[⟨1, 1, 100, true⟩], [], 0⟩
      ⟨0, 1, 1, -30, TxType.expense, 70, false, none⟩ (by decide),
    c6_sign_normalization.2 1 1 ⟨100, []⟩ ⟨7, 20⟩
      ⟨0, 1, 1, -20, TxType.expense, 80, false, some 7⟩ (by decide)⟩

theorem c7_isUrgent_threshold :
    (∀ (u : Nat) (req : CreateTransactionRequest) (db : DB) (tx : Transaction),
      (createTransaction u req db).2.transactions = db.transactions ++ [tx] →
      (tx.isUrgent = true ↔ 1000 < |req.amount|)) ∧
    (∀ (u : Nat) (req : UpdateTransactionRequest) (db : DB) (tx2 : Transaction),
      tx2 ∈ (updateTransaction u req db).2.transactions →
      tx2 ∉ db.transactions →
      (tx2.isUrgent = true ↔ 1000 < |req.amount|)) ∧
    (∀ (accountId userId : Nat) (s : SyncState) (p : PlaidTx) (tx : Transaction),
      (syncOne accountId userId s p).transactions = s.transactions ++ [tx] →
      (tx.isUrgent = true ↔ 1000 < |p.amount|)) := by
  refine ⟨?_, ?_, ?_⟩
  · intro u req db tx h
    rcases hfind : findAccountOwnedActive db req.accountId u with _ | acct
    · simp [createTransaction, hfind] at h
    · simp only [createTransaction, hfind, saveAccount] at h
      have h2 := List.append_cancel_left h
      have h3 : tx = ⟨db.nextTxId, req.accountId, u, storedAmount req.txType req.amount,
          req.txType, createNewBalance acct.balance req.txType req.amount,
          decide (1000 < |req.amount|), none⟩ := by
        injection h2 with hh
        exact hh.symm
      subst h3
      simp
  · intro u req db tx2 hmem hnot
    rcases hfind : findTransactionOwned db req.txId u with _ | tx
    · simp [updateTransaction, hfind] at hmem
      exact absurd hmem hnot
    · rcases hfa : findAccountById db tx.accountId with _ | acct
      · simp [updateTransaction, hfind, hfa] at hmem
        exact absurd hmem hnot
      · simp only [updateTransaction, hfind, hfa, saveTransaction, saveAccount] at hmem
        rcases List.mem_map.mp hmem with ⟨s, hs, hfs⟩
        by_cases hc : (s.id == tx.id) = true
        · simp only [hc, if_true] at hfs
          subst hfs
          simp
        · have hc2 : (s.id == tx.id) = false := by
            rwa [Bool.not_eq_true] at hc
          simp only [hc2, Bool.false_eq_true, if_false] at hfs
          subst hfs
          exact absurd hs hnot
  · intro accountId userId s p tx h
    by_cases hp : extPresent s.transactions p.transactionId = true
    · simp [syncOne, hp] at h
    · have hp2 : extPresent s.transactions p.transactionId = false := by
        rwa [Bool.not_eq_true] at hp
      simp only [syncOne, hp2, Bool.false_eq_true, if_false] at h
      have h2 := List.append_cancel_left h
      have h3 : tx = ⟨0, accountId, userId,
          if plaidTxType p.amount = TxType.expense then -|p.amount| else |p.amount|,
          plaidTxType p.amount,
          if plaidTxType p.amount = TxType.expense then s.balance - |p.amount|
            else s.balance + |p.amount|,
          decide (1000 < |p.amount|), some p.transactionId⟩ := by
        injection h2 with hh
        exact hh.symm
      subst h3
      simp

theorem c7_isUrgent_threshold_witness :
    ((⟨0, 1, 1, -1000, TxType.expense, -900, false, none⟩ : Transaction).isUrgent = true ↔
      1000 < |(1000 : Int)|) ∧
    ((⟨0, 1, 1, 2000, TxType.income, 2100, true, some 3⟩ : Transaction).isUrgent = true ↔
      1000 < |(-2000 : Int)|) :=
  ⟨c7_isUrgent_threshold.1 1 ⟨1, 1000, TxType.expense⟩ ⟨[⟨1, 1, 100, true⟩], [], 0⟩
      ⟨0, 1, 1, -1000, TxType.expense, -900, false, none⟩ (by decide),
    c7_isUrgent_threshold.2.2 1 1 ⟨100, []⟩ ⟨3, -2000⟩
      ⟨0, 1, 1, 2000, TxType.income, 2100, true, some 3⟩ (by decide)⟩

lemma extCount_eq_zero (txs : List Transaction) (pid : Nat)
    (h : extPresent txs pid = false) : extCount txs pid = 0 := by
  induction txs with
  | nil => rfl
  | cons t ts ih =>
    by_cases hc : (t.plaidTransactionId == some pid) = true
    · exfalso
      simp [extPresent, List.any_cons, hc] at h
    · have hc2 : (t.plaidTransactionId == some pid) = false := by
        rwa [Bool.not_eq_true] at hc
      have hts : extPresent ts pid = false := by
        simpa [extPresent, List.any_cons, hc2] using h
      simpa [extCount, List.filter_cons, hc2] using ih hts

lemma extCount_append_single (txs : List Transaction) (tx : Transaction) (pid : Nat) :
    extCount (txs ++ [tx]) pid =
      extCount txs pid + (if (tx.plaidTransactionId == some pid) = true then 1 else 0) := by
  by_cases hc : (tx.plaidTransactionId == some pid) = true
  · simp [extCount, List.filter_append, List.filter_cons, hc]
  · have hc2 : (tx.plaidTransactionId == some pid) = false := by
      rwa [Bool.not_eq_true] at hc
    simp [extCount, List.filter_append, List.filter_cons, hc2]

lemma syncOne_count_of_present (accountId userId : Nat) (s : SyncState) (p : PlaidTx)
    (pid : Nat) (h : extPresent s.transactions pid = true) :
    extPresent (syncOne accountId userId s p).transactions pid = true ∧
    extCount (syncOne accountId userId s p).transactions pid =
      extCount s.transactions pid := by
  by_cases hp : extPresent s.transactions p.transactionId = true
  · simp [syncOne, hp, h]
  · have hp2 : extPresent s.transactions p.transactionId = false := by
      rwa [Bool.not_eq_true] at hp
    have hne : (some p.transactionId == some pid) = false := by
      by_cases he : p.transactionId = pid
      · subst he
        rw [hp2] at h
        cases h
      · simp [he]
    simp only [syncOne, hp2, Bool.false_eq_true, if_false]
    constructor
    · simp only [extPresent, List.any_append] at h ⊢
      simp [extPresent] at h
      simp [h]
    · rw [extCount_append_single]
      simp [hne]

lemma sync_count_of_present (accountId userId : Nat) (batch : List PlaidTx)
    (s : SyncState) (pid : Nat) (h : extPresent s.transactions pid = true) :
    extPresent (syncAccountTransactions accountId userId s batch).transactions pid = true ∧
    extCount (syncAccountTransactions accountId userId s batch).transactions pid =
      extCount s.transactions pid := by
  induction batch generalizing s with
  | nil => exact ⟨h, rfl⟩
  | cons p ps ih =>
    have hstep := syncOne_count_of_present accountId userId s p pid h
    have hrest := ih (syncOne accountId userId s p) hstep.1
    exact ⟨hrest.1, hrest.2.trans hstep.2⟩

lemma syncOne_atMostOne (accountId userId : Nat) (s : SyncState) (p : PlaidTx)
    (h : atMostOnePerExt s.transactions) :
    atMostOnePerExt (syncOne accountId userId s p).transactions := by
  intro pid
  by_cases hp : extPresent s.transactions p.transactionId = true
  · simpa [syncOne, hp] using h pid
  · have hp2 : extPresent s.transactions p.transactionId = false := by
      rwa [Bool.not_eq_true] at hp
    simp only [syncOne, hp2, Bool.false_eq_true, if_false]
    rw [extCount_append_single]
    by_cases he : p.transactionId = pid
    · subst he
      have h0 := extCount_eq_zero s.transactions p.transactionId hp2
      simp [h0]
    · have hne : ((some p.transactionId : Option Nat) == some pid) = false := by
        simp [he]
      simp only [hne, Bool.false_eq_true, if_false]
      simpa using h pid

lemma sync_atMostOne (accountId userId : Nat) (batch : List PlaidTx) (s : SyncState)
    (h : atMostOnePerExt s.transactions) :
    atMostOnePerExt (syncAccountTransactions accountId userId s batch).transactions := by
  induction batch generalizing s with
  | nil => exact h
  | cons p ps ih => exact ih _ (syncOne_atMostOne accountId userId s p h)

theorem c8_sync_idempotent_upsert :
    (∀ (accountId userId : Nat) (s : SyncState) (batch : List PlaidTx) (pid : Nat),
      extPresent s.transactions pid = true →
      extCount (syncAccountTransactions accountId userId s batch).transactions pid =
        extCount s.transactions pid) ∧
    (∀ (accountId userId : Nat) (s : SyncState) (batch : List PlaidTx),
      atMostOnePerExt s.transactions →
      atMostOnePerExt (syncAccountTransactions accountId userId s batch).transactions) :=
  ⟨fun accountId userId s batch pid h =>
      (sync_count_of_present accountId userId batch s pid h).2,
    fun accountId userId s batch h => sync_atMostOne accountId userId batch s h⟩

theorem c8_sync_idempotent_upsert_witness :
    extCount (syncAccountTransactions 1 1
        ⟨100, [⟨0, 1, 1, -20, TxType.expense, 80, false, some 7⟩]⟩
        [⟨7, 20⟩]).transactions 7 =
      extCount [⟨0, 1, 1, -20, TxType.expense, 80, false, some 7⟩] 7 ∧
    atMostOnePerExt (syncAccountTransactions 1 1
        ⟨100, [⟨0, 1, 1, -20, TxType.expense, 80, false, some 7⟩]⟩
        [⟨7, 20⟩]).transactions :=
  ⟨c8_sync_idempotent_upsert.1 1 1
      ⟨100, [⟨0, 1, 1, -20, TxType.expense, 80, false, some 7⟩]⟩ [⟨7, 20⟩] 7 (by decide),
    c8_sync_idempotent_upsert.2 1 1
      ⟨100, [⟨0, 1, 1, -20, TxType.expense, 80, false, some 7⟩]⟩ [⟨7, 20⟩]
      (fun pid => by
        simpa [extCount] using
          List.length_filter_le (fun (t : Transaction) => t.plaidTransactionId == some pid)
            ([⟨0, 1, 1, -20, TxType.expense, 80, false, some 7⟩] : List Transaction))⟩

theorem c9_statuses_and_shapes_witness :
    (((404 : Nat), ({ message := "Account not found", error := none } : ErrorBody)).1 = 404 ∧
        ((404 : Nat), ({ message := "Account not found", error := none } : ErrorBody)).2.error
          = none) ∨
    (((404 : Nat), ({ message := "Account not found", error := none } : ErrorBody)).1 = 500 ∧
        ((404 : Nat), ({ message := "Account not found", error := none } : ErrorBody)).2.error
          = some "boom") :=
  c9_statuses_and_shapes "boom"
    (404, { message := "Account not found", error := none }) (by decide)
